import Mathlib

/-!
Verification of the Monte Carlo baseball simulator.

The probability model (src/models/probability.py), the game simulators
(src/engine/game.py), the season simulator (src/simulation/season.py) and the
effect-size computation (src/gui/tabs/compare_tab.py) are embedded shallowly
over exact rationals.  Floating point arithmetic is modelled by exact rational
arithmetic; the square root used by the effect-size computation is abstracted
as a function parameter.  Parts of the repository that the provided sources do
not contain (config.py with the interpolation anchors, engine/inning.py with
the half-inning simulator) are modelled from the spec as parameters.
-/

set_option maxHeartbeats 1000000

namespace Baseball

/-- Conditional hit-type distribution: the Python dict with keys 1B, 2B, 3B, HR
(`oneB` stands for the key 1B and so on, since a Lean name cannot start with a
digit). -/
structure HitDist where
  oneB : ℚ
  twoB : ℚ
  threeB : ℚ
  hr : ℚ
  deriving DecidableEq

/-- The dict entries of a hit-type distribution, in the order the Python code
builds them. -/
def HitDist.toList (h : HitDist) : List (String × ℚ) :=
  [("1B", h.oneB), ("2B", h.twoB), ("3B", h.threeB), ("HR", h.hr)]

/-- Modelled from the spec: config.py is not among the provided sources.  The
spec (section 6) lists the configuration options isoThresholds (low, medium)
and hitDistributionProfiles (singlesHitter, balanced, powerHitter); the code in
src/models/probability.py reads them as config.ISO_THRESHOLDS and
config.HIT_DISTRIBUTIONS.  We model the configuration as an explicit record of
those values. -/
structure Config where
  iso_low : ℚ
  iso_med : ℚ
  singles_hitter : HitDist
  balanced : HitDist
  power_hitter : HitDist
  deriving DecidableEq

/-- A hit-type distribution is valid when every component is nonnegative and
the components sum to one. -/
def HitDist.IsDist (h : HitDist) : Prop :=
  0 ≤ h.oneB ∧ 0 ≤ h.twoB ∧ 0 ≤ h.threeB ∧ 0 ≤ h.hr ∧
    h.oneB + h.twoB + h.threeB + h.hr = 1

instance (h : HitDist) : Decidable h.IsDist := by
  unfold HitDist.IsDist; infer_instance

/-- A configuration is valid when the low threshold is strictly below the
medium one and all three anchor profiles are valid distributions. -/
def Config.Valid (cfg : Config) : Prop :=
  cfg.iso_low < cfg.iso_med ∧ cfg.singles_hitter.IsDist ∧
    cfg.balanced.IsDist ∧ cfg.power_hitter.IsDist

instance (cfg : Config) : Decidable cfg.Valid := by
  unfold Config.Valid; infer_instance

/-- calculate_hit_distribution from src/models/probability.py: piecewise-linear
interpolation across the three anchor profiles, keyed on isolated power.  The
literal 0.200 of the source is the rational 1/5. -/
def calculate_hit_distribution (cfg : Config) (iso : ℚ) : HitDist :=
  if iso < cfg.iso_low then
    cfg.singles_hitter
  else if iso < cfg.iso_med then
    let weight := (iso - cfg.iso_low) / (cfg.iso_med - cfg.iso_low)
    ⟨cfg.singles_hitter.oneB * (1 - weight) + cfg.balanced.oneB * weight,
     cfg.singles_hitter.twoB * (1 - weight) + cfg.balanced.twoB * weight,
     cfg.singles_hitter.threeB * (1 - weight) + cfg.balanced.threeB * weight,
     cfg.singles_hitter.hr * (1 - weight) + cfg.balanced.hr * weight⟩
  else
    let weight := min 1 ((iso - cfg.iso_med) / (1/5))
    ⟨cfg.balanced.oneB * (1 - weight) + cfg.power_hitter.oneB * weight,
     cfg.balanced.twoB * (1 - weight) + cfg.power_hitter.twoB * weight,
     cfg.balanced.threeB * (1 - weight) + cfg.power_hitter.threeB * weight,
     cfg.balanced.hr * (1 - weight) + cfg.power_hitter.hr * weight⟩

/-- PA outcome distribution: the Python dict with keys OUT, WALK, SINGLE,
DOUBLE, TRIPLE, HR. -/
structure PAProbs where
  out : ℚ
  walk : ℚ
  single : ℚ
  double : ℚ
  triple : ℚ
  hr : ℚ
  deriving DecidableEq

/-- The dict entries of a PA outcome distribution, in the order the Python
code builds them. -/
def PAProbs.toList (p : PAProbs) : List (String × ℚ) :=
  [("OUT", p.out), ("WALK", p.walk), ("SINGLE", p.single),
   ("DOUBLE", p.double), ("TRIPLE", p.triple), ("HR", p.hr)]

/-- The default tolerance 1e-6 of validate_probabilities. -/
def tolerance_default : ℚ := 1 / 1000000

/-- validate_probabilities from src/models/probability.py: raise (here: return
an error) when some probability is negative, then when the sum deviates from
1.0 by more than the tolerance; otherwise return True. -/
def validate_probabilities (probs : List (String × ℚ)) (tolerance : ℚ) :
    Except String Bool :=
  match probs.find? (fun kv => decide (kv.2 < 0)) with
  | some kv => Except.error ("Negative probability for " ++ kv.1)
  | none =>
    let total := (probs.map Prod.snd).sum
    if |total - 1| > tolerance then
      Except.error "Probabilities do not sum to 1.0 within tolerance"
    else
      Except.ok true

/-- Whether an Except value is a success. -/
def isOkE {ε α : Type} : Except ε α → Bool
  | Except.ok _ => true
  | Except.error _ => false

/-- The raw PA outcome probabilities computed by decompose_slash_line before
validation: P(out) = 1 - OBP, P(walk) = OBP - BA, and BA split across the
hit types by the conditional hit-type distribution. -/
def raw_pa_probs (cfg : Config) (ba obp slg : ℚ) : PAProbs :=
  let hit_dist := calculate_hit_distribution cfg (slg - ba)
  ⟨1 - obp, obp - ba, ba * hit_dist.oneB, ba * hit_dist.twoB,
   ba * hit_dist.threeB, ba * hit_dist.hr⟩

/-- decompose_slash_line from src/models/probability.py: compute the hit-type
distribution from ISO = SLG - BA, build the PA outcome probabilities, validate
both distributions, and return them unchanged. -/
def decompose_slash_line (cfg : Config) (ba obp slg : ℚ) :
    Except String (PAProbs × HitDist) :=
  let iso := slg - ba
  let hit_dist := calculate_hit_distribution cfg iso
  let p_out := 1 - obp
  let p_walk := obp - ba
  let p_hit := ba
  let pa_probs : PAProbs :=
    ⟨p_out, p_walk, p_hit * hit_dist.oneB, p_hit * hit_dist.twoB,
     p_hit * hit_dist.threeB, p_hit * hit_dist.hr⟩
  match validate_probabilities pa_probs.toList tolerance_default with
  | Except.error e => Except.error e
  | Except.ok _ =>
    match validate_probabilities hit_dist.toList tolerance_default with
    | Except.error e => Except.error e
    | Except.ok _ => Except.ok (pa_probs, hit_dist)

/-- calculate_expected_bases_per_hit from src/models/probability.py. -/
def calculate_expected_bases_per_hit (hit_dist : HitDist) : ℚ :=
  1 * hit_dist.oneB + 2 * hit_dist.twoB + 3 * hit_dist.threeB + 4 * hit_dist.hr

/-- The comparison metrics returned by compare_to_observed. -/
structure ComparisonMetrics where
  observed_bases_per_hit : ℚ
  expected_bases_per_hit : ℚ
  absolute_error : ℚ
  error_pct : ℚ
  deriving DecidableEq

/-- compare_to_observed from src/models/probability.py: the observed
bases-per-hit ratio is SLG / BA guarded by BA > 0 (default 0), and the error
percentage is guarded by the observed ratio being positive (default 0). -/
def compare_to_observed (ba slg : ℚ) (hit_dist : HitDist) : ComparisonMetrics :=
  let observed_bases_per_hit := if ba > 0 then slg / ba else 0
  let expected_bases_per_hit := calculate_expected_bases_per_hit hit_dist
  let err := expected_bases_per_hit - observed_bases_per_hit
  let error_pct :=
    if observed_bases_per_hit > 0 then err / observed_bases_per_hit * 100 else 0
  ⟨observed_bases_per_hit, expected_bases_per_hit, err, error_pct⟩

/-! ### Effect size (CompareTab._calculate_cohens_d, src/gui/tabs/compare_tab.py)

numpy is external to the repository: np.mean and np.std (with ddof = 1) are
embedded as exact rational mean and sample variance, and np.sqrt is abstracted
as a function parameter `sq` (the code only ever applies it to nonnegative
arguments, and the claims about Cohens d do not depend on its values). -/

/-- np.mean of a sample: sum divided by length (0 for the empty sample, by the
rational convention that division by zero is zero). -/
def npMean (data : List ℚ) : ℚ :=
  data.sum / data.length

/-- The square of np.std(data, ddof=1): the sample variance with an n - 1
denominator. -/
def sampleVariance (data : List ℚ) : ℚ :=
  ((data.map (fun x => (x - npMean data) ^ 2)).sum) / ((data.length : ℚ) - 1)

/-- The pooled standard deviation of _calculate_cohens_d: the code squares the
two sample standard deviations std1 = sq(var1) and std2 = sq(var2), weights
them by n - 1, divides by n1 + n2 - 2 and applies sq again. -/
def pooled_std (sq : ℚ → ℚ) (data1 data2 : List ℚ) : ℚ :=
  let std1 := sq (sampleVariance data1)
  let std2 := sq (sampleVariance data2)
  let n1 : ℚ := data1.length
  let n2 : ℚ := data2.length
  sq (((n1 - 1) * std1 ^ 2 + (n2 - 1) * std2 ^ 2) / (n1 + n2 - 2))

/-- CompareTab._calculate_cohens_d from src/gui/tabs/compare_tab.py:
d = (mean1 - mean2) / pooled_std when pooled_std > 0, else 0. -/
def calculate_cohens_d (sq : ℚ → ℚ) (data1 data2 : List ℚ) : ℚ :=
  let mean1 := npMean data1
  let mean2 := npMean data2
  if pooled_std sq data1 data2 > 0 then
    (mean1 - mean2) / pooled_std sq data1 data2
  else 0

/-- Written from the words of the spec, for comparison with the code: Cohens d
is (mean1 - mean2) / pooledStd, defined as 0 when pooledStd = 0. -/
def cohens_d_spec (sq : ℚ → ℚ) (data1 data2 : List ℚ) : ℚ :=
  if pooled_std sq data1 data2 = 0 then 0
  else (npMean data1 - npMean data2) / pooled_std sq data1 data2

/-! ### Game and season simulation (src/engine/game.py, src/simulation/season.py)

The half-inning simulator lives in src/engine/inning.py, which is not among
the provided sources.  Modelled from the spec (section 4.4): it maps a lineup,
a starting batter index and the state of the random stream to runs scored, the
next batter index and accumulated stats.  We abstract it as a function
parameter `half` over an arbitrary player type P and generator-state type G;
the stats record carries the fields the game simulator reads. -/

/-- The stats dict returned by a half-inning simulation, with the keys read by
simulate_game (hits, walks, lob, sb_success, sb_attempts, sac_flies). -/
structure HalfStats where
  hits : ℕ
  walks : ℕ
  lob : ℕ
  sb_success : ℕ
  sb_attempts : ℕ
  sac_flies : ℕ
  deriving DecidableEq

/-- Modelled from the spec: the type of the half-inning simulator
(simulate_half_inning of src/engine/inning.py): lineup, starting batter index
and generator state in; runs, next batter index, stats and new generator state
out. -/
def HalfSim (P G : Type) : Type :=
  List P → ℕ → G → ℕ × ℕ × HalfStats × G

/-- One line of the inning_results list built by simulate_game. -/
structure InningLine where
  inning : ℕ
  runs : ℕ
  hits : ℕ
  walks : ℕ
  lob : ℕ
  deriving DecidableEq

/-- The result dict of simulate_game (single-team mode). -/
structure GameResult where
  total_runs : ℕ
  total_hits : ℕ
  total_walks : ℕ
  total_lob : ℕ
  total_sb : ℕ
  total_cs : ℕ
  total_sf : ℕ
  innings_played : ℕ
  inning_results : List InningLine
  deriving DecidableEq

/-- The running accumulator of the inning loop of simulate_game: the totals,
the current batter index and the inning_results list. -/
structure GameAcc where
  total_runs : ℕ
  total_hits : ℕ
  total_walks : ℕ
  total_lob : ℕ
  total_sb : ℕ
  total_cs : ℕ
  total_sf : ℕ
  batter_idx : ℕ
  inning_results : List InningLine
  deriving DecidableEq

/-- One iteration of the inning loop of simulate_game: simulate a half-inning
from the current batter, add the stats to the totals (caught stealing is
sb_attempts - sb_success), append the inning line and carry the next batter
index forward. -/
def game_step {P G : Type} (half : HalfSim P G) (lineup : List P) (inning : ℕ)
    (acc : GameAcc) (g : G) : GameAcc × G :=
  let r := half lineup acc.batter_idx g
  let runs := r.1
  let next_batter := r.2.1
  let stats := r.2.2.1
  let g2 := r.2.2.2
  (⟨acc.total_runs + runs,
    acc.total_hits + stats.hits,
    acc.total_walks + stats.walks,
    acc.total_lob + stats.lob,
    acc.total_sb + stats.sb_success,
    acc.total_cs + (stats.sb_attempts - stats.sb_success),
    acc.total_sf + stats.sac_flies,
    next_batter,
    acc.inning_results ++
      [⟨inning, runs, stats.hits, stats.walks, stats.lob⟩]⟩, g2)

/-- The inning loop of simulate_game: run game_step for `count` innings
starting at inning number `inning`. -/
def game_run {P G : Type} (half : HalfSim P G) (lineup : List P) :
    ℕ → ℕ → GameAcc → G → GameAcc × G
  | 0, _, acc, g => (acc, g)
  | count + 1, inning, acc, g =>
    let s := game_step half lineup inning acc g
    game_run half lineup count (inning + 1) s.1 s.2

/-- simulate_game from src/engine/game.py, generalized over the starting
batter index (the source fixes it to 0; see simulate_game below). -/
def simulate_game_from {P G : Type} (half : HalfSim P G) (lineup : List P)
    (n_innings start_batter : ℕ) (g : G) : GameResult × G :=
  let acc0 : GameAcc := ⟨0, 0, 0, 0, 0, 0, 0, start_batter, []⟩
  let s := game_run half lineup n_innings 1 acc0 g
  (⟨s.1.total_runs, s.1.total_hits, s.1.total_walks, s.1.total_lob,
    s.1.total_sb, s.1.total_cs, s.1.total_sf, n_innings,
    s.1.inning_results⟩, s.2)

/-- simulate_game from src/engine/game.py: the batter index starts at 0 (the
leadoff batter). -/
def simulate_game {P G : Type} (half : HalfSim P G) (lineup : List P)
    (n_innings : ℕ) (g : G) : GameResult × G :=
  simulate_game_from half lineup n_innings 0 g

/-- One line of the game_results list built by simulate_season. -/
structure SeasonGameLine where
  game_num : ℕ
  runs : ℕ
  hits : ℕ
  walks : ℕ
  deriving DecidableEq

/-- The result dict of simulate_season. -/
structure SeasonResult where
  total_runs : ℕ
  total_hits : ℕ
  total_walks : ℕ
  total_lob : ℕ
  total_sb : ℕ
  total_cs : ℕ
  total_sf : ℕ
  games_played : ℕ
  avg_runs_per_game : ℚ
  game_results : List SeasonGameLine
  deriving DecidableEq

/-- The accumulator of the game loop of simulate_season: the season totals and
the game_results list. -/
structure SeasonAcc where
  total_runs : ℕ
  total_hits : ℕ
  total_walks : ℕ
  total_lob : ℕ
  total_sb : ℕ
  total_cs : ℕ
  total_sf : ℕ
  game_results : List SeasonGameLine
  deriving DecidableEq

/-- The game loop of simulate_season: `count` games remain, `game_num` is the
number of the next game; every game is simulated with simulate_game (9
innings). -/
def season_run {P G : Type} (half : HalfSim P G) (lineup : List P) :
    ℕ → ℕ → SeasonAcc → G → SeasonAcc × G
  | 0, _, acc, g => (acc, g)
  | count + 1, game_num, acc, g =>
    let s := simulate_game half lineup 9 g
    let gr := s.1
    let acc2 : SeasonAcc :=
      ⟨acc.total_runs + gr.total_runs,
       acc.total_hits + gr.total_hits,
       acc.total_walks + gr.total_walks,
       acc.total_lob + gr.total_lob,
       acc.total_sb + gr.total_sb,
       acc.total_cs + gr.total_cs,
       acc.total_sf + gr.total_sf,
       acc.game_results ++
         [⟨game_num, gr.total_runs, gr.total_hits, gr.total_walks⟩]⟩
    season_run half lineup count (game_num + 1) acc2 s.2

/-- simulate_season from src/simulation/season.py: run n_games games, sum the
per-game totals and divide total runs by the number of games. -/
def simulate_season {P G : Type} (half : HalfSim P G) (lineup : List P)
    (n_games : ℕ) (g : G) : SeasonResult × G :=
  let acc0 : SeasonAcc := ⟨0, 0, 0, 0, 0, 0, 0, []⟩
  let s := season_run half lineup n_games 1 acc0 g
  (⟨s.1.total_runs, s.1.total_hits, s.1.total_walks, s.1.total_lob,
    s.1.total_sb, s.1.total_cs, s.1.total_sf, n_games,
    (s.1.total_runs : ℚ) / (n_games : ℚ),
    s.1.game_results⟩, s.2)

/-- The sequence of per-game results a season of n games produces: the list of
the GameResult values of the successive simulate_game calls, threading the
generator state. -/
def season_games {P G : Type} (half : HalfSim P G) (lineup : List P) :
    ℕ → G → List GameResult × G
  | 0, g => ([], g)
  | n + 1, g =>
    let s := simulate_game half lineup 9 g
    let rest := season_games half lineup n s.2
    (s.1 :: rest.1, rest.2)

/-- The generator state seen by game number k (0-based) of a season started in
state g: each game advances the state by one simulate_game call. -/
def gen_before {P G : Type} (half : HalfSim P G) (lineup : List P) :
    ℕ → G → G
  | 0, g => g
  | k + 1, g => gen_before half lineup k (simulate_game half lineup 9 g).2

/-! ### Two-team game (simulate_game_with_opponent, src/engine/game.py)

The Python while loop has no a-priori bound (a perpetually tied game would
loop forever), so the embedding takes an explicit fuel argument and returns
none when the fuel runs out before the loop exits. -/

/-- One line of the home_innings / away_innings lists. -/
structure TeamInning where
  inning : ℕ
  runs : ℕ
  hits : ℕ
  deriving DecidableEq

/-- The mutable state of the while loop of simulate_game_with_opponent: both
scores, both batter indices, both per-team inning lists and the generator
state. -/
structure OppGameSt (G : Type) where
  home_score : ℕ
  away_score : ℕ
  home_batter_idx : ℕ
  away_batter_idx : ℕ
  home_innings : List TeamInning
  away_innings : List TeamInning
  gen : G
  deriving DecidableEq

/-- The body of the while loop of simulate_game_with_opponent for one inning:
the away team bats; if at or after max_innings the home team now leads
strictly, break (second component true) without the home team batting;
otherwise the home team bats and the same walk-off check runs again. -/
def inning_step {P G : Type} (half : HalfSim P G)
    (home_lineup away_lineup : List P) (max_innings inning : ℕ)
    (st : OppGameSt G) : OppGameSt G × Bool :=
  let ra := half away_lineup st.away_batter_idx st.gen
  let st1 : OppGameSt G :=
    ⟨st.home_score, st.away_score + ra.1, st.home_batter_idx, ra.2.1,
     st.home_innings,
     st.away_innings ++ [⟨inning, ra.1, ra.2.2.1.hits⟩], ra.2.2.2⟩
  if max_innings ≤ inning ∧ st1.away_score < st1.home_score then (st1, true)
  else
    let rh := half home_lineup st1.home_batter_idx st1.gen
    let st2 : OppGameSt G :=
      ⟨st1.home_score + rh.1, st1.away_score, rh.2.1, st1.away_batter_idx,
       st1.home_innings ++ [⟨inning, rh.1, rh.2.2.1.hits⟩],
       st1.away_innings, rh.2.2.2⟩
    if max_innings ≤ inning ∧ st2.away_score < st2.home_score then (st2, true)
    else (st2, false)

/-- The while loop of simulate_game_with_opponent: while the inning is at most
max_innings or the score is level, run inning_step; a break returns the state
with the current inning number, a normal exit returns the state with the
incremented inning number.  The fuel bounds the number of iterations. -/
def game_loop {P G : Type} (half : HalfSim P G)
    (home_lineup away_lineup : List P) (max_innings : ℕ) :
    ℕ → ℕ → OppGameSt G → Option (OppGameSt G × ℕ)
  | 0, _, _ => none
  | fuel + 1, inning, st =>
    if inning ≤ max_innings ∨ st.home_score = st.away_score then
      let s := inning_step half home_lineup away_lineup max_innings inning st
      if s.2 then some (s.1, inning)
      else game_loop half home_lineup away_lineup max_innings fuel
        (inning + 1) s.1
    else some (st, inning)

/-- The result dict of simulate_game_with_opponent. -/
structure OppGameResult where
  home_score : ℕ
  away_score : ℕ
  innings_played : ℕ
  winner : String
  home_innings : List TeamInning
  away_innings : List TeamInning
  deriving DecidableEq

/-- simulate_game_with_opponent from src/engine/game.py: run the inning loop
from inning 1 with zero scores and leadoff batters; the winner field is home
when the home score is strictly higher and away otherwise. -/
def simulate_game_with_opponent {P G : Type} (half : HalfSim P G)
    (home_lineup away_lineup : List P) (max_innings fuel : ℕ) (g : G) :
    Option OppGameResult :=
  match game_loop half home_lineup away_lineup max_innings fuel 1
      ⟨0, 0, 0, 0, [], [], g⟩ with
  | none => none
  | some s =>
    some ⟨s.1.home_score, s.1.away_score, s.2,
      if s.1.home_score > s.1.away_score then "home" else "away",
      s.1.home_innings, s.1.away_innings⟩

/-! ### Helper lemmas -/

theorem hitDist_mk_eq (p : HitDist) (a b c d : ℚ) (ha : a = p.oneB)
    (hb : b = p.twoB) (hc : c = p.threeB) (hd : d = p.hr) :
    (⟨a, b, c, d⟩ : HitDist) = p := by
  cases p
  rw [ha, hb, hc, hd]

theorem blend_isDist (a b : HitDist) (w : ℚ) (ha : a.IsDist) (hb : b.IsDist)
    (hw0 : 0 ≤ w) (hw1 : w ≤ 1) :
    HitDist.IsDist
      ⟨a.oneB * (1 - w) + b.oneB * w, a.twoB * (1 - w) + b.twoB * w,
       a.threeB * (1 - w) + b.threeB * w, a.hr * (1 - w) + b.hr * w⟩ := by
  obtain ⟨ha1, ha2, ha3, ha4, haS⟩ := ha
  obtain ⟨hb1, hb2, hb3, hb4, hbS⟩ := hb
  have hw1' : (0 : ℚ) ≤ 1 - w := by linarith
  refine ⟨?_, ?_, ?_, ?_, ?_⟩
  · exact add_nonneg (mul_nonneg ha1 hw1') (mul_nonneg hb1 hw0)
  · exact add_nonneg (mul_nonneg ha2 hw1') (mul_nonneg hb2 hw0)
  · exact add_nonneg (mul_nonneg ha3 hw1') (mul_nonneg hb3 hw0)
  · exact add_nonneg (mul_nonneg ha4 hw1') (mul_nonneg hb4 hw0)
  · show _ + _ + _ + _ = (1 : ℚ)
    linear_combination (1 - w) * haS + w * hbS

/-- For a valid configuration the interpolated hit-type distribution is a
distribution for every isolated power value. -/
theorem calculate_hit_distribution_isDist (cfg : Config) (hc : cfg.Valid)
    (iso : ℚ) : (calculate_hit_distribution cfg iso).IsDist := by
  obtain ⟨hlm, hs, hbd, hp⟩ := hc
  rw [calculate_hit_distribution]
  split_ifs with h1 h2
  · exact hs
  · have hlow : cfg.iso_low ≤ iso := not_lt.mp h1
    have hd : 0 < cfg.iso_med - cfg.iso_low := by linarith
    refine blend_isDist cfg.singles_hitter cfg.balanced _ hs hbd ?_ ?_
    · exact div_nonneg (by linarith) (le_of_lt hd)
    · rw [div_le_one hd]
      linarith
  · have hmed : cfg.iso_med ≤ iso := not_lt.mp h2
    refine blend_isDist cfg.balanced cfg.power_hitter _ hbd hp ?_ ?_
    · exact le_min (by norm_num) (div_nonneg (by linarith) (by norm_num))
    · exact min_le_left _ _

/-- A sample configuration used by the witnesses below. -/
def sample_config : Config :=
  ⟨1/10, 1/5,
   ⟨78/100, 17/100, 3/100, 2/100⟩,
   ⟨65/100, 20/100, 2/100, 13/100⟩,
   ⟨50/100, 25/100, 2/100, 23/100⟩⟩

/-! ### Claims -/

/-- C7: for every isolated-power value strictly below the low threshold,
calculate_hit_distribution returns exactly the singles-hitter anchor profile,
with no interpolation. -/
theorem c7_low_iso_singles_profile (cfg : Config) (iso : ℚ)
    (h : iso < cfg.iso_low) :
    calculate_hit_distribution cfg iso = cfg.singles_hitter := by
  simp only [calculate_hit_distribution, if_pos h]

/-- Witness for C7 at a concrete input. -/
theorem c7_low_iso_singles_profile_witness :
    ((1 : ℚ)/20 < sample_config.iso_low) ∧
      calculate_hit_distribution sample_config (1/20) =
        sample_config.singles_hitter :=
  ⟨by norm_num [sample_config],
   c7_low_iso_singles_profile sample_config (1/20)
     (by norm_num [sample_config])⟩

/-- C6: for every isolated-power value at or above the medium threshold plus
0.200, calculate_hit_distribution returns exactly the power-hitter anchor
profile (the interpolation weight saturates at 1). -/
theorem c6_power_saturation (cfg : Config) (iso : ℚ)
    (hlm : cfg.iso_low ≤ cfg.iso_med) (h : cfg.iso_med + 1/5 ≤ iso) :
    calculate_hit_distribution cfg iso = cfg.power_hitter := by
  have h1 : ¬ iso < cfg.iso_low := not_lt.mpr (by norm_num at h ⊢; linarith)
  have h2 : ¬ iso < cfg.iso_med := not_lt.mpr (by norm_num at h ⊢; linarith)
  have hw : min (1 : ℚ) ((iso - cfg.iso_med) / (1/5)) = 1 := by
    refine min_eq_left ?_
    rw [le_div_iff₀ (by norm_num : (0:ℚ) < 1/5)]
    linarith
  simp only [calculate_hit_distribution, if_neg h1, if_neg h2, hw]
  exact hitDist_mk_eq _ _ _ _ _ (by ring) (by ring) (by ring) (by ring)

/-- Witness for C6 at a concrete input. -/
theorem c6_power_saturation_witness :
    (sample_config.iso_low ≤ sample_config.iso_med) ∧
      (sample_config.iso_med + 1/5 ≤ (1 : ℚ)/2) ∧
      calculate_hit_distribution sample_config (1/2) =
        sample_config.power_hitter :=
  ⟨by norm_num [sample_config], by norm_num [sample_config],
   c6_power_saturation sample_config (1/2) (by norm_num [sample_config])
     (by norm_num [sample_config])⟩

/-- C9: when BA = 0, compare_to_observed never divides by BA: the observed
bases-per-hit ratio is the defined default 0, and the error percentage is 0 as
well, for every SLG and every hit distribution. -/
theorem c9_ba_zero_guard (slg : ℚ) (hit_dist : HitDist) :
    (compare_to_observed 0 slg hit_dist).observed_bases_per_hit = 0 ∧
      (compare_to_observed 0 slg hit_dist).error_pct = 0 := by
  constructor <;> simp [compare_to_observed]

/-- C8: Cohens d is antisymmetric under operand swap, for every square-root
function and every pair of samples: d(A, B) = -d(B, A). -/
theorem c8_cohens_d_antisymmetric (sq : ℚ → ℚ) (data1 data2 : List ℚ) :
    calculate_cohens_d sq data1 data2 = - calculate_cohens_d sq data2 data1 := by
  have hsym : pooled_std sq data1 data2 = pooled_std sq data2 data1 := by
    simp only [pooled_std]
    congr 1
    ring
  simp only [calculate_cohens_d, hsym]
  split_ifs with h
  · ring
  · ring

/-- The success value of an Except, if any. -/
def okValueE {ε α : Type} : Except ε α → Option α
  | Except.ok a => some a
  | Except.error _ => none

/-- decompose_slash_line, rewritten as the two validation gates around the raw
values (definitional). -/
theorem decompose_eq (cfg : Config) (ba obp slg : ℚ) :
    decompose_slash_line cfg ba obp slg =
      match validate_probabilities (raw_pa_probs cfg ba obp slg).toList
          tolerance_default with
      | Except.error e => Except.error e
      | Except.ok _ =>
        match validate_probabilities
            (calculate_hit_distribution cfg (slg - ba)).toList
            tolerance_default with
        | Except.error e => Except.error e
        | Except.ok _ =>
          Except.ok (raw_pa_probs cfg ba obp slg,
            calculate_hit_distribution cfg (slg - ba)) := rfl

/-- Validation succeeds on a nonnegative distribution summing to one, for any
nonnegative tolerance. -/
theorem validate_probabilities_ok (probs : List (String × ℚ)) (tolerance : ℚ)
    (hnn : ∀ kv ∈ probs, 0 ≤ kv.2) (hsum : (probs.map Prod.snd).sum = 1)
    (htol : 0 ≤ tolerance) :
    validate_probabilities probs tolerance = Except.ok true := by
  have hf : probs.find? (fun kv => decide (kv.2 < 0)) = none := by
    rw [List.find?_eq_none]
    intro kv hkv
    simpa using not_lt.mpr (hnn kv hkv)
  have hif : ¬ |(probs.map Prod.snd).sum - 1| > tolerance := by
    rw [hsum]
    simp only [sub_self, abs_zero]
    exact not_lt.mpr htol
  simp only [validate_probabilities, hf, if_neg hif]

/-- C2: the computed Cohens d equals the spec formula: (mean1 - mean2) divided
by the pooled standard deviation (built from the ddof = 1 sample standard
deviations), with the defined fallback d = 0 when the pooled standard
deviation is 0, and no error in that degenerate case.  The abstract square
root is only assumed to return a nonnegative pooled standard deviation, which
np.sqrt does on the nonnegative pooled variance. -/
theorem c2_cohens_d_formula (sq : ℚ → ℚ) (data1 data2 : List ℚ)
    (hs : 0 ≤ pooled_std sq data1 data2) :
    calculate_cohens_d sq data1 data2 = cohens_d_spec sq data1 data2 ∧
      (pooled_std sq data1 data2 = 0 →
        calculate_cohens_d sq data1 data2 = 0) := by
  constructor
  · simp only [calculate_cohens_d, cohens_d_spec]
    split_ifs with ha hb hb
    · exact absurd hb (ne_of_gt ha)
    · rfl
    · rfl
    · exact absurd (lt_of_le_of_ne hs (Ne.symm hb)) ha
  · intro h0
    simp only [calculate_cohens_d, h0]
    norm_num

/-- Witness for C2 at a concrete input. -/
theorem c2_cohens_d_formula_witness :
    (0 ≤ pooled_std id [0, 2] [1]) ∧
      (calculate_cohens_d id [0, 2] [1] = cohens_d_spec id [0, 2] [1] ∧
        (pooled_std id [0, 2] [1] = 0 → calculate_cohens_d id [0, 2] [1] = 0)) :=
  ⟨by norm_num [pooled_std, sampleVariance, npMean],
   c2_cohens_d_formula id [0, 2] [1]
     (by norm_num [pooled_std, sampleVariance, npMean])⟩

/-- C5: validation fails exactly when some probability is negative or the sum
deviates from 1.0 by more than the tolerance; decompose_slash_line succeeds
exactly when both the PA outcome distribution and the hit-type distribution
validate, and on success it returns the raw computed values unchanged (no
clamping or renormalization). -/
theorem c5_validation_iff (probs : List (String × ℚ)) (tolerance : ℚ)
    (cfg : Config) (ba obp slg : ℚ) :
    (isOkE (validate_probabilities probs tolerance) = false ↔
      (∃ kv ∈ probs, kv.2 < 0) ∨ |(probs.map Prod.snd).sum - 1| > tolerance) ∧
    (isOkE (decompose_slash_line cfg ba obp slg) =
      (isOkE (validate_probabilities (raw_pa_probs cfg ba obp slg).toList
          tolerance_default) &&
        isOkE (validate_probabilities
          (calculate_hit_distribution cfg (slg - ba)).toList
          tolerance_default))) ∧
    (okValueE (decompose_slash_line cfg ba obp slg) =
      if (isOkE (validate_probabilities (raw_pa_probs cfg ba obp slg).toList
            tolerance_default) &&
          isOkE (validate_probabilities
            (calculate_hit_distribution cfg (slg - ba)).toList
            tolerance_default)) = true
      then some (raw_pa_probs cfg ba obp slg,
        calculate_hit_distribution cfg (slg - ba))
      else none) := by
  refine ⟨?_, ?_, ?_⟩
  · rcases hf : probs.find? (fun kv => decide (kv.2 < 0)) with _ | kv
    · simp only [validate_probabilities, hf]
      split_ifs with hc
      · exact iff_of_true rfl (Or.inr hc)
      · refine iff_of_false (by simp [isOkE]) ?_
        rintro (⟨kv, hkv, hneg⟩ | habs)
        · have := List.find?_eq_none.mp hf kv hkv
          simp only [decide_eq_true_eq] at this
          exact this hneg
        · exact hc habs
    · simp only [validate_probabilities, hf]
      refine iff_of_true rfl (Or.inl ⟨kv, List.mem_of_find?_eq_some hf, ?_⟩)
      have := List.find?_some hf
      simpa using this
  · rw [decompose_eq]
    rcases validate_probabilities (raw_pa_probs cfg ba obp slg).toList
        tolerance_default with e1 | b1
    · simp [isOkE]
    · rcases validate_probabilities
          (calculate_hit_distribution cfg (slg - ba)).toList
          tolerance_default with e2 | b2
      · simp [isOkE]
      · simp [isOkE]
  · rw [decompose_eq]
    rcases validate_probabilities (raw_pa_probs cfg ba obp slg).toList
        tolerance_default with e1 | b1
    · simp [isOkE, okValueE]
    · rcases validate_probabilities
          (calculate_hit_distribution cfg (slg - ba)).toList
          tolerance_default with e2 | b2
      · simp [isOkE, okValueE]
      · simp [isOkE, okValueE]

/-- The raw PA outcome probabilities, written out (definitional). -/
theorem raw_pa_probs_def (cfg : Config) (ba obp slg : ℚ) :
    raw_pa_probs cfg ba obp slg =
      ⟨1 - obp, obp - ba,
       ba * (calculate_hit_distribution cfg (slg - ba)).oneB,
       ba * (calculate_hit_distribution cfg (slg - ba)).twoB,
       ba * (calculate_hit_distribution cfg (slg - ba)).threeB,
       ba * (calculate_hit_distribution cfg (slg - ba)).hr⟩ := rfl

/-- C1: for every input with 0 ≤ BA ≤ OBP ≤ 1 and OBP ≤ SLG (and a valid
configuration), decompose_slash_line succeeds and returns the PA outcome
distribution with P(out) = 1 - OBP, P(walk) = OBP - BA and each hit-type
probability BA times the conditional hit-type probability; all six components
are nonnegative and they sum to 1 exactly, hence within 1e-6. -/
theorem c1_pa_distribution (cfg : Config) (ba obp slg : ℚ) (hc : cfg.Valid)
    (h0 : 0 ≤ ba) (h1 : ba ≤ obp) (h2 : obp ≤ 1) (_h3 : obp ≤ slg) :
    decompose_slash_line cfg ba obp slg =
      Except.ok (raw_pa_probs cfg ba obp slg,
        calculate_hit_distribution cfg (slg - ba)) ∧
    raw_pa_probs cfg ba obp slg =
      ⟨1 - obp, obp - ba,
       ba * (calculate_hit_distribution cfg (slg - ba)).oneB,
       ba * (calculate_hit_distribution cfg (slg - ba)).twoB,
       ba * (calculate_hit_distribution cfg (slg - ba)).threeB,
       ba * (calculate_hit_distribution cfg (slg - ba)).hr⟩ ∧
    0 ≤ (raw_pa_probs cfg ba obp slg).out ∧
    0 ≤ (raw_pa_probs cfg ba obp slg).walk ∧
    0 ≤ (raw_pa_probs cfg ba obp slg).single ∧
    0 ≤ (raw_pa_probs cfg ba obp slg).double ∧
    0 ≤ (raw_pa_probs cfg ba obp slg).triple ∧
    0 ≤ (raw_pa_probs cfg ba obp slg).hr ∧
    (raw_pa_probs cfg ba obp slg).out + (raw_pa_probs cfg ba obp slg).walk +
      (raw_pa_probs cfg ba obp slg).single +
      (raw_pa_probs cfg ba obp slg).double +
      (raw_pa_probs cfg ba obp slg).triple +
      (raw_pa_probs cfg ba obp slg).hr = 1 ∧
    |(raw_pa_probs cfg ba obp slg).out + (raw_pa_probs cfg ba obp slg).walk +
      (raw_pa_probs cfg ba obp slg).single +
      (raw_pa_probs cfg ba obp slg).double +
      (raw_pa_probs cfg ba obp slg).triple +
      (raw_pa_probs cfg ba obp slg).hr - 1| ≤ 1/1000000 := by
  obtain ⟨d1, d2, d3, d4, dS⟩ := calculate_hit_distribution_isDist cfg hc (slg - ba)
  have hout : (0:ℚ) ≤ 1 - obp := by linarith
  have hwalk : (0:ℚ) ≤ obp - ba := by linarith
  have hsg : 0 ≤ ba * (calculate_hit_distribution cfg (slg - ba)).oneB :=
    mul_nonneg h0 d1
  have hdb : 0 ≤ ba * (calculate_hit_distribution cfg (slg - ba)).twoB :=
    mul_nonneg h0 d2
  have htr : 0 ≤ ba * (calculate_hit_distribution cfg (slg - ba)).threeB :=
    mul_nonneg h0 d3
  have hhr : 0 ≤ ba * (calculate_hit_distribution cfg (slg - ba)).hr :=
    mul_nonneg h0 d4
  have hsum : (1 - obp) + (obp - ba) +
      ba * (calculate_hit_distribution cfg (slg - ba)).oneB +
      ba * (calculate_hit_distribution cfg (slg - ba)).twoB +
      ba * (calculate_hit_distribution cfg (slg - ba)).threeB +
      ba * (calculate_hit_distribution cfg (slg - ba)).hr = 1 := by
    linear_combination ba * dS
  have hv1 : validate_probabilities (raw_pa_probs cfg ba obp slg).toList
      tolerance_default = Except.ok true := by
    apply validate_probabilities_ok
    · intro kv hkv
      simp only [raw_pa_probs_def, PAProbs.toList, List.mem_cons,
        List.not_mem_nil, or_false] at hkv
      rcases hkv with h | h | h | h | h | h
      · subst h; exact hout
      · subst h; exact hwalk
      · subst h; exact hsg
      · subst h; exact hdb
      · subst h; exact htr
      · subst h; exact hhr
    · simp only [raw_pa_probs_def, PAProbs.toList, List.map_cons,
        List.map_nil, List.sum_cons, List.sum_nil]
      linarith [hsum]
    · norm_num [tolerance_default]
  have hv2 : validate_probabilities
      (calculate_hit_distribution cfg (slg - ba)).toList
      tolerance_default = Except.ok true := by
    apply validate_probabilities_ok
    · intro kv hkv
      simp only [HitDist.toList, List.mem_cons, List.not_mem_nil,
        or_false] at hkv
      rcases hkv with h | h | h | h
      · subst h; exact d1
      · subst h; exact d2
      · subst h; exact d3
      · subst h; exact d4
    · simp only [HitDist.toList, List.map_cons, List.map_nil,
        List.sum_cons, List.sum_nil]
      linarith [dS]
    · norm_num [tolerance_default]
  have hsum' : (raw_pa_probs cfg ba obp slg).out +
      (raw_pa_probs cfg ba obp slg).walk +
      (raw_pa_probs cfg ba obp slg).single +
      (raw_pa_probs cfg ba obp slg).double +
      (raw_pa_probs cfg ba obp slg).triple +
      (raw_pa_probs cfg ba obp slg).hr = 1 := hsum
  refine ⟨?_, rfl, hout, hwalk, hsg, hdb, htr, hhr, hsum', ?_⟩
  · rw [decompose_eq, hv1, hv2]
  · rw [hsum']
    norm_num

theorem sample_config_valid : sample_config.Valid := by
  refine ⟨?_, ⟨?_, ?_, ?_, ?_, ?_⟩, ⟨?_, ?_, ?_, ?_, ?_⟩,
    ⟨?_, ?_, ?_, ?_, ?_⟩⟩ <;> norm_num [sample_config]

/-- Witness for C1 at a concrete input. -/
theorem c1_pa_distribution_witness :
    sample_config.Valid ∧ ((0:ℚ) ≤ 26/100) ∧ ((26:ℚ)/100 ≤ 33/100) ∧
      ((33:ℚ)/100 ≤ 1) ∧ ((33:ℚ)/100 ≤ 42/100) ∧
      (decompose_slash_line sample_config (26/100) (33/100) (42/100) =
        Except.ok (raw_pa_probs sample_config (26/100) (33/100) (42/100),
          calculate_hit_distribution sample_config (42/100 - 26/100)) ∧
      raw_pa_probs sample_config (26/100) (33/100) (42/100) =
        ⟨1 - 33/100, 33/100 - 26/100,
         26/100 * (calculate_hit_distribution sample_config
           (42/100 - 26/100)).oneB,
         26/100 * (calculate_hit_distribution sample_config
           (42/100 - 26/100)).twoB,
         26/100 * (calculate_hit_distribution sample_config
           (42/100 - 26/100)).threeB,
         26/100 * (calculate_hit_distribution sample_config
           (42/100 - 26/100)).hr⟩ ∧
      0 ≤ (raw_pa_probs sample_config (26/100) (33/100) (42/100)).out ∧
      0 ≤ (raw_pa_probs sample_config (26/100) (33/100) (42/100)).walk ∧
      0 ≤ (raw_pa_probs sample_config (26/100) (33/100) (42/100)).single ∧
      0 ≤ (raw_pa_probs sample_config (26/100) (33/100) (42/100)).double ∧
      0 ≤ (raw_pa_probs sample_config (26/100) (33/100) (42/100)).triple ∧
      0 ≤ (raw_pa_probs sample_config (26/100) (33/100) (42/100)).hr ∧
      (raw_pa_probs sample_config (26/100) (33/100) (42/100)).out +
        (raw_pa_probs sample_config (26/100) (33/100) (42/100)).walk +
        (raw_pa_probs sample_config (26/100) (33/100) (42/100)).single +
        (raw_pa_probs sample_config (26/100) (33/100) (42/100)).double +
        (raw_pa_probs sample_config (26/100) (33/100) (42/100)).triple +
        (raw_pa_probs sample_config (26/100) (33/100) (42/100)).hr = 1 ∧
      |(raw_pa_probs sample_config (26/100) (33/100) (42/100)).out +
        (raw_pa_probs sample_config (26/100) (33/100) (42/100)).walk +
        (raw_pa_probs sample_config (26/100) (33/100) (42/100)).single +
        (raw_pa_probs sample_config (26/100) (33/100) (42/100)).double +
        (raw_pa_probs sample_config (26/100) (33/100) (42/100)).triple +
        (raw_pa_probs sample_config (26/100) (33/100) (42/100)).hr - 1| ≤
        1/1000000) :=
  ⟨sample_config_valid, by norm_num, by norm_num, by norm_num, by norm_num,
   c1_pa_distribution sample_config (26/100) (33/100) (42/100)
     sample_config_valid (by norm_num) (by norm_num) (by norm_num)
     (by norm_num)⟩

/-- If the inning body breaks, the home team is strictly ahead in the
resulting state: both break paths are guarded by a strict home lead. -/
theorem inning_step_break {P G : Type} (half : HalfSim P G)
    (homeL awayL : List P) (mi inning : ℕ) (st : OppGameSt G)
    (h : (inning_step half homeL awayL mi inning st).2 = true) :
    (inning_step half homeL awayL mi inning st).1.away_score <
      (inning_step half homeL awayL mi inning st).1.home_score := by
  simp only [inning_step] at h ⊢
  split_ifs at h ⊢ with h1 h2
  · exact h1.2
  · exact h2.2

/-- Whenever the while loop of the two-team game returns, the final state has
distinct scores: a break needs a strict home lead and a normal exit needs the
loop guard (which holds on level scores) to fail. -/
theorem game_loop_ne {P G : Type} (half : HalfSim P G) (homeL awayL : List P)
    (mi : ℕ) : ∀ (fuel inning : ℕ) (st : OppGameSt G) (s : OppGameSt G × ℕ),
      game_loop half homeL awayL mi fuel inning st = some s →
      s.1.home_score ≠ s.1.away_score := by
  intro fuel
  induction fuel with
  | zero =>
    intro inning st s h
    simp [game_loop] at h
  | succ n ih =>
    intro inning st s h
    rw [game_loop] at h
    by_cases hg : inning ≤ mi ∨ st.home_score = st.away_score
    · rw [if_pos hg] at h
      dsimp only at h
      by_cases hb : (inning_step half homeL awayL mi inning st).2 = true
      · rw [if_pos hb] at h
        obtain rfl := Option.some.inj h
        have := inning_step_break half homeL awayL mi inning st hb
        exact (ne_of_lt this).symm
      · rw [if_neg hb] at h
        exact ih (inning + 1) _ s h
    · rw [if_neg hg] at h
      obtain rfl := Option.some.inj h
      rcases not_or.mp hg with ⟨_, hne⟩
      exact hne

/-- C10: every terminating two-team game simulation returns distinct scores
(a game never ends tied), and the winner field names the team with the
strictly higher score: home exactly when the home score is higher, away
exactly when the away score is higher. -/
theorem c10_no_tie_winner {P G : Type} (half : HalfSim P G)
    (homeL awayL : List P) (mi fuel : ℕ) (g : G) (r : OppGameResult)
    (h : simulate_game_with_opponent half homeL awayL mi fuel g = some r) :
    r.home_score ≠ r.away_score ∧
      (r.winner = "home" ↔ r.away_score < r.home_score) ∧
      (r.winner = "away" ↔ r.home_score < r.away_score) := by
  unfold simulate_game_with_opponent at h
  rcases hloop : game_loop half homeL awayL mi fuel 1 ⟨0, 0, 0, 0, [], [], g⟩
      with _ | s
  · rw [hloop] at h
    exact absurd h (by simp)
  · rw [hloop] at h
    have hne := game_loop_ne half homeL awayL mi fuel 1 _ s hloop
    obtain rfl := Option.some.inj h
    have hsne : ("home" : String) ≠ "away" := by decide
    refine ⟨hne, ?_, ?_⟩
    · by_cases hgt : s.1.away_score < s.1.home_score
      · rw [if_pos hgt]
        exact iff_of_true rfl hgt
      · rw [if_neg hgt]
        exact iff_of_false (Ne.symm hsne) hgt
    · by_cases hgt : s.1.away_score < s.1.home_score
      · rw [if_pos hgt]
        exact iff_of_false hsne (by dsimp only; omega)
      · rw [if_neg hgt]
        exact iff_of_true rfl (by dsimp only; omega)

/-- The deterministic half-inning simulator used by the witnesses: it scores
as many runs as the generator state holds and sets the state to 1. -/
def half_witness : HalfSim Unit ℕ :=
  fun _ b n => (n, b, ⟨0, 0, 0, 0, 0, 0⟩, 1)

/-- Witness for C10 at a concrete input: with one regulation inning and two
units of fuel the game ends 1 to 0 by walk-off. -/
theorem c10_no_tie_winner_witness :
    (simulate_game_with_opponent half_witness [] [] 1 2 0 =
      some ⟨1, 0, 1, "home", [⟨1, 1, 0⟩], [⟨1, 0, 0⟩]⟩) ∧
    ((1 : ℕ) ≠ 0 ∧
      ((("home" : String) = "home") ↔ (0 : ℕ) < 1) ∧
      ((("home" : String) = "away") ↔ (1 : ℕ) < 0)) :=
  ⟨by rfl,
   c10_no_tie_winner half_witness [] [] 1 2 0
     ⟨1, 0, 1, "home", [⟨1, 1, 0⟩], [⟨1, 0, 0⟩]⟩ (by rfl)⟩

/-- The per-game results of a season are exactly the results of fresh games:
game k (0-based) is simulate_game_from with starting batter index 0 applied to
the generator state threaded to it — the batter index never carries over from
one game to the next. -/
theorem season_games_eq {P G : Type} (half : HalfSim P G) (lineup : List P) :
    ∀ (n : ℕ) (g : G),
      (season_games half lineup n g).1 =
        (List.range n).map
          (fun k => (simulate_game_from half lineup 9 0
            (gen_before half lineup k g)).1) := by
  intro n
  induction n with
  | zero =>
    intro g
    simp [season_games]
  | succ m ih =>
    intro g
    rw [season_games]
    dsimp only
    rw [ih ((simulate_game half lineup 9 g).2), List.range_succ_eq_map,
      List.map_cons, List.map_map]
    rfl

/-- The season loop accumulates exactly the sums of the per-game totals. -/
theorem season_run_totals {P G : Type} (half : HalfSim P G) (lineup : List P) :
    ∀ (n game_num : ℕ) (acc : SeasonAcc) (g : G),
      (season_run half lineup n game_num acc g).1.total_runs =
        acc.total_runs +
          (((season_games half lineup n g).1).map GameResult.total_runs).sum ∧
      (season_run half lineup n game_num acc g).1.total_hits =
        acc.total_hits +
          (((season_games half lineup n g).1).map GameResult.total_hits).sum ∧
      (season_run half lineup n game_num acc g).1.total_walks =
        acc.total_walks +
          (((season_games half lineup n g).1).map GameResult.total_walks).sum ∧
      (season_run half lineup n game_num acc g).1.total_lob =
        acc.total_lob +
          (((season_games half lineup n g).1).map GameResult.total_lob).sum ∧
      (season_run half lineup n game_num acc g).1.total_sb =
        acc.total_sb +
          (((season_games half lineup n g).1).map GameResult.total_sb).sum ∧
      (season_run half lineup n game_num acc g).1.total_cs =
        acc.total_cs +
          (((season_games half lineup n g).1).map GameResult.total_cs).sum ∧
      (season_run half lineup n game_num acc g).1.total_sf =
        acc.total_sf +
          (((season_games half lineup n g).1).map GameResult.total_sf).sum ∧
      (season_run half lineup n game_num acc g).2 =
        (season_games half lineup n g).2 := by
  intro n
  induction n with
  | zero =>
    intro game_num acc g
    simp [season_run, season_games]
  | succ m ih =>
    intro game_num acc g
    rw [season_run, season_games]
    dsimp only
    obtain ⟨h1, h2, h3, h4, h5, h6, h7, h8⟩ := ih (game_num + 1)
      ⟨acc.total_runs + (simulate_game half lineup 9 g).1.total_runs,
       acc.total_hits + (simulate_game half lineup 9 g).1.total_hits,
       acc.total_walks + (simulate_game half lineup 9 g).1.total_walks,
       acc.total_lob + (simulate_game half lineup 9 g).1.total_lob,
       acc.total_sb + (simulate_game half lineup 9 g).1.total_sb,
       acc.total_cs + (simulate_game half lineup 9 g).1.total_cs,
       acc.total_sf + (simulate_game half lineup 9 g).1.total_sf,
       acc.game_results ++
         [⟨game_num, (simulate_game half lineup 9 g).1.total_runs,
           (simulate_game half lineup 9 g).1.total_hits,
           (simulate_game half lineup 9 g).1.total_walks⟩]⟩
      ((simulate_game half lineup 9 g).2)
    refine ⟨?_, ?_, ?_, ?_, ?_, ?_, ?_, h8⟩
    · rw [h1, List.map_cons, List.sum_cons]; dsimp only; omega
    · rw [h2, List.map_cons, List.sum_cons]; dsimp only; omega
    · rw [h3, List.map_cons, List.sum_cons]; dsimp only; omega
    · rw [h4, List.map_cons, List.sum_cons]; dsimp only; omega
    · rw [h5, List.map_cons, List.sum_cons]; dsimp only; omega
    · rw [h6, List.map_cons, List.sum_cons]; dsimp only; omega
    · rw [h7, List.map_cons, List.sum_cons]; dsimp only; omega

/-- C4: in a season of n games every game starts with the batter index at the
leadoff slot (index 0) — each per-game result is a fresh simulate_game_from
with starting batter 0, depending only on the threaded generator state — and
the season totals are the sums of the per-game totals, with
avg_runs_per_game = total runs / n. -/
theorem c4_season_totals {P G : Type} (half : HalfSim P G) (lineup : List P)
    (n : ℕ) (g : G) (_hn : 1 ≤ n) :
    (simulate_season half lineup n g).1.total_runs =
      (((season_games half lineup n g).1).map GameResult.total_runs).sum ∧
    (simulate_season half lineup n g).1.total_hits =
      (((season_games half lineup n g).1).map GameResult.total_hits).sum ∧
    (simulate_season half lineup n g).1.total_walks =
      (((season_games half lineup n g).1).map GameResult.total_walks).sum ∧
    (simulate_season half lineup n g).1.total_lob =
      (((season_games half lineup n g).1).map GameResult.total_lob).sum ∧
    (simulate_season half lineup n g).1.total_sb =
      (((season_games half lineup n g).1).map GameResult.total_sb).sum ∧
    (simulate_season half lineup n g).1.total_cs =
      (((season_games half lineup n g).1).map GameResult.total_cs).sum ∧
    (simulate_season half lineup n g).1.total_sf =
      (((season_games half lineup n g).1).map GameResult.total_sf).sum ∧
    (simulate_season half lineup n g).1.games_played = n ∧
    (simulate_season half lineup n g).1.avg_runs_per_game =
      ((simulate_season half lineup n g).1.total_runs : ℚ) / (n : ℚ) ∧
    (season_games half lineup n g).1 =
      (List.range n).map
        (fun k => (simulate_game_from half lineup 9 0
          (gen_before half lineup k g)).1) := by
  obtain ⟨h1, h2, h3, h4, h5, h6, h7, _⟩ :=
    season_run_totals half lineup n 1 ⟨0, 0, 0, 0, 0, 0, 0, []⟩ g
  refine ⟨?_, ?_, ?_, ?_, ?_, ?_, ?_, rfl, rfl, season_games_eq half lineup n g⟩
  · simpa using h1
  · simpa using h2
  · simpa using h3
  · simpa using h4
  · simpa using h5
  · simpa using h6
  · simpa using h7

/-- C3: at or after the regulation minimum inning, (a) the home half-inning is
simulated (a home inning line is appended) exactly when the home team is not
strictly ahead after the away half; (b) the inning body signals a break
exactly when the home team is strictly ahead at its end, and then the loop
returns immediately, simulating no further half-inning; (c) when the score is
level after a completed inning, the loop always continues into the next
inning, whose body runs again. -/
theorem c3_walkoff_extra_innings {P G : Type} (half : HalfSim P G)
    (homeL awayL : List P) (mi inning fuel : ℕ) (st : OppGameSt G)
    (hmin : mi ≤ inning)
    (hguard : inning ≤ mi ∨ st.home_score = st.away_score) :
    ((inning_step half homeL awayL mi inning st).1.home_innings.length =
        st.home_innings.length + 1 ↔
      st.home_score ≤ (inning_step half homeL awayL mi inning st).1.away_score) ∧
    ((inning_step half homeL awayL mi inning st).2 = true ↔
      (inning_step half homeL awayL mi inning st).1.away_score <
        (inning_step half homeL awayL mi inning st).1.home_score) ∧
    ((inning_step half homeL awayL mi inning st).2 = true →
      game_loop half homeL awayL mi (fuel + 1) inning st =
        some ((inning_step half homeL awayL mi inning st).1, inning)) ∧
    ((inning_step half homeL awayL mi inning st).1.home_score =
        (inning_step half homeL awayL mi inning st).1.away_score →
      game_loop half homeL awayL mi (fuel + 1) inning st =
        game_loop half homeL awayL mi fuel (inning + 1)
          (inning_step half homeL awayL mi inning st).1 ∧
      game_loop half homeL awayL mi (fuel + 1) (inning + 1)
          (inning_step half homeL awayL mi inning st).1 =
        (if (inning_step half homeL awayL mi (inning + 1)
              (inning_step half homeL awayL mi inning st).1).2 = true
         then some ((inning_step half homeL awayL mi (inning + 1)
              (inning_step half homeL awayL mi inning st).1).1, inning + 1)
         else game_loop half homeL awayL mi fuel (inning + 2)
              (inning_step half homeL awayL mi (inning + 1)
                (inning_step half homeL awayL mi inning st).1).1)) := by
  have ha : (inning_step half homeL awayL mi inning st).1.home_innings.length =
      st.home_innings.length + 1 ↔
      st.home_score ≤ (inning_step half homeL awayL mi inning st).1.away_score := by
    simp only [inning_step]
    split_ifs with h1 h2
    · dsimp only
      exact iff_of_false (by omega) (by omega)
    · dsimp only
      refine iff_of_true (by simp) ?_
      have h1' : ¬ (st.away_score +
          (half awayL st.away_batter_idx st.gen).1 < st.home_score) :=
        fun hlt => h1 ⟨hmin, hlt⟩
      omega
    · dsimp only
      refine iff_of_true (by simp) ?_
      have h1' : ¬ (st.away_score +
          (half awayL st.away_batter_idx st.gen).1 < st.home_score) :=
        fun hlt => h1 ⟨hmin, hlt⟩
      omega
  have hb : (inning_step half homeL awayL mi inning st).2 = true ↔
      (inning_step half homeL awayL mi inning st).1.away_score <
        (inning_step half homeL awayL mi inning st).1.home_score := by
    simp only [inning_step]
    split_ifs with h1 h2
    · dsimp only
      exact iff_of_true rfl h1.2
    · dsimp only
      exact iff_of_true rfl h2.2
    · dsimp only
      refine iff_of_false (by simp) ?_
      intro hlt
      exact h2 ⟨hmin, hlt⟩
  refine ⟨ha, hb, ?_, ?_⟩
  · intro hbreak
    rw [game_loop, if_pos hguard]
    dsimp only
    rw [if_pos hbreak]
  · intro htie
    have hnb : ¬ (inning_step half homeL awayL mi inning st).2 = true := by
      intro hb2
      have := hb.mp hb2
      omega
    constructor
    · rw [game_loop, if_pos hguard]
      dsimp only
      rw [if_neg hnb]
    · rw [game_loop, if_pos (Or.inr htie :
        inning + 1 ≤ mi ∨
          (inning_step half homeL awayL mi inning st).1.home_score =
            (inning_step half homeL awayL mi inning st).1.away_score)]

/-- Witness for C4 at a concrete input. -/
theorem c4_season_totals_witness :
    ((1 : ℕ) ≤ 2) ∧
    ((simulate_season half_witness ([] : List Unit) 2 0).1.total_runs =
      (((season_games half_witness ([] : List Unit) 2 0).1).map
        GameResult.total_runs).sum ∧
     (simulate_season half_witness ([] : List Unit) 2 0).1.total_hits =
      (((season_games half_witness ([] : List Unit) 2 0).1).map
        GameResult.total_hits).sum ∧
     (simulate_season half_witness ([] : List Unit) 2 0).1.total_walks =
      (((season_games half_witness ([] : List Unit) 2 0).1).map
        GameResult.total_walks).sum ∧
     (simulate_season half_witness ([] : List Unit) 2 0).1.total_lob =
      (((season_games half_witness ([] : List Unit) 2 0).1).map
        GameResult.total_lob).sum ∧
     (simulate_season half_witness ([] : List Unit) 2 0).1.total_sb =
      (((season_games half_witness ([] : List Unit) 2 0).1).map
        GameResult.total_sb).sum ∧
     (simulate_season half_witness ([] : List Unit) 2 0).1.total_cs =
      (((season_games half_witness ([] : List Unit) 2 0).1).map
        GameResult.total_cs).sum ∧
     (simulate_season half_witness ([] : List Unit) 2 0).1.total_sf =
      (((season_games half_witness ([] : List Unit) 2 0).1).map
        GameResult.total_sf).sum ∧
     (simulate_season half_witness ([] : List Unit) 2 0).1.games_played = 2 ∧
     (simulate_season half_witness ([] : List Unit) 2 0).1.avg_runs_per_game =
      ((simulate_season half_witness ([] : List Unit) 2 0).1.total_runs : ℚ) / ((2 : ℕ) : ℚ) ∧
     (season_games half_witness ([] : List Unit) 2 0).1 =
      (List.range 2).map
        (fun k => (simulate_game_from half_witness ([] : List Unit) 9 0
          (gen_before half_witness ([] : List Unit) k 0)).1)) :=
  ⟨by norm_num, c4_season_totals half_witness ([] : List Unit) 2 0 (by norm_num)⟩

/-- Witness for C3 at a concrete input. -/
theorem c3_walkoff_extra_innings_witness :
    ((1 : ℕ) ≤ 1) ∧
    ((1 : ℕ) ≤ 1 ∨ ((⟨0, 0, 0, 0, [], [], 0⟩ : OppGameSt ℕ)).home_score = ((⟨0, 0, 0, 0, [], [], 0⟩ : OppGameSt ℕ)).away_score) ∧
    (((inning_step half_witness ([] : List Unit) ([] : List Unit) 1 1 (⟨0, 0, 0, 0, [], [], 0⟩ : OppGameSt ℕ)).1.home_innings.length =
        (⟨0, 0, 0, 0, [], [], 0⟩ : OppGameSt ℕ).home_innings.length + 1 ↔
      (⟨0, 0, 0, 0, [], [], 0⟩ : OppGameSt ℕ).home_score ≤ (inning_step half_witness ([] : List Unit) ([] : List Unit) 1 1 (⟨0, 0, 0, 0, [], [], 0⟩ : OppGameSt ℕ)).1.away_score) ∧
    ((inning_step half_witness ([] : List Unit) ([] : List Unit) 1 1 (⟨0, 0, 0, 0, [], [], 0⟩ : OppGameSt ℕ)).2 = true ↔
      (inning_step half_witness ([] : List Unit) ([] : List Unit) 1 1 (⟨0, 0, 0, 0, [], [], 0⟩ : OppGameSt ℕ)).1.away_score <
        (inning_step half_witness ([] : List Unit) ([] : List Unit) 1 1 (⟨0, 0, 0, 0, [], [], 0⟩ : OppGameSt ℕ)).1.home_score) ∧
    ((inning_step half_witness ([] : List Unit) ([] : List Unit) 1 1 (⟨0, 0, 0, 0, [], [], 0⟩ : OppGameSt ℕ)).2 = true →
      game_loop half_witness ([] : List Unit) ([] : List Unit) 1 (1 + 1) 1 (⟨0, 0, 0, 0, [], [], 0⟩ : OppGameSt ℕ) =
        some ((inning_step half_witness ([] : List Unit) ([] : List Unit) 1 1 (⟨0, 0, 0, 0, [], [], 0⟩ : OppGameSt ℕ)).1, 1)) ∧
    ((inning_step half_witness ([] : List Unit) ([] : List Unit) 1 1 (⟨0, 0, 0, 0, [], [], 0⟩ : OppGameSt ℕ)).1.home_score =
        (inning_step half_witness ([] : List Unit) ([] : List Unit) 1 1 (⟨0, 0, 0, 0, [], [], 0⟩ : OppGameSt ℕ)).1.away_score →
      game_loop half_witness ([] : List Unit) ([] : List Unit) 1 (1 + 1) 1 (⟨0, 0, 0, 0, [], [], 0⟩ : OppGameSt ℕ) =
        game_loop half_witness ([] : List Unit) ([] : List Unit) 1 1 (1 + 1)
          (inning_step half_witness ([] : List Unit) ([] : List Unit) 1 1 (⟨0, 0, 0, 0, [], [], 0⟩ : OppGameSt ℕ)).1 ∧
      game_loop half_witness ([] : List Unit) ([] : List Unit) 1 (1 + 1) (1 + 1)
          (inning_step half_witness ([] : List Unit) ([] : List Unit) 1 1 (⟨0, 0, 0, 0, [], [], 0⟩ : OppGameSt ℕ)).1 =
        (if (inning_step half_witness ([] : List Unit) ([] : List Unit) 1 (1 + 1)
              (inning_step half_witness ([] : List Unit) ([] : List Unit) 1 1 (⟨0, 0, 0, 0, [], [], 0⟩ : OppGameSt ℕ)).1).2 = true
         then some ((inning_step half_witness ([] : List Unit) ([] : List Unit) 1 (1 + 1)
              (inning_step half_witness ([] : List Unit) ([] : List Unit) 1 1 (⟨0, 0, 0, 0, [], [], 0⟩ : OppGameSt ℕ)).1).1, 1 + 1)
         else game_loop half_witness ([] : List Unit) ([] : List Unit) 1 1 (1 + 2)
              (inning_step half_witness ([] : List Unit) ([] : List Unit) 1 (1 + 1)
                (inning_step half_witness ([] : List Unit) ([] : List Unit) 1 1 (⟨0, 0, 0, 0, [], [], 0⟩ : OppGameSt ℕ)).1).1))) :=
  ⟨le_refl 1, Or.inl (le_refl 1),
   c3_walkoff_extra_innings half_witness ([] : List Unit) ([] : List Unit)
     1 1 1 ⟨0, 0, 0, 0, [], [], 0⟩ (le_refl 1) (Or.inl (le_refl 1))⟩

end Baseball
